import Mathlib

/-!
Shallow embedding of the computational core of app.py, the Environmental
Impact Explorer dashboard: power and water unit conversion, facility size
categorization, the impact statistics engine, and the percentile based
tercile classifier.

Python floats are modelled as exact rationals.  The value type FloatVal
additionally models NaN and the infinities, because the statistics filter in
calculate_environmental_impact is sensitive to them.  The human readable
interpolated trace strings of the debug dictionaries are elided; notes that
are string constants in the source are kept verbatim.
-/

/-- Model of a Python or numpy double as seen by the filter mask in
calculate_environmental_impact: NaN, one of the two infinities, or a finite
value, the latter modelled exactly as a rational. -/
inductive FloatVal where
  | nan
  | posinf
  | neginf
  | val (q : ℚ)
deriving DecidableEq

/-- Embedding of numpy isnan. -/
def FloatVal.isnanB : FloatVal → Bool
  | .nan => true
  | _ => false

/-- Embedding of the IEEE comparison v greater than 0 used by the filter mask
on line 359 of app.py: NaN compares false, positive infinity compares true. -/
def FloatVal.gtZeroB : FloatVal → Bool
  | .nan => false
  | .posinf => true
  | .neginf => false
  | .val q => decide (0 < q)

/-- A float is finite when it is an actual number, neither NaN nor infinite. -/
def FloatVal.isFiniteB : FloatVal → Bool
  | .val _ => true
  | _ => false

/-- Line 359 of app.py: the mask keeps entries that are not NaN and compare
greater than zero. -/
def validValues (vs : List FloatVal) : List FloatVal :=
  vs.filter (fun v => !v.isnanB && v.gtZeroB)

/-- Line 361 of app.py: the error dictionary is returned exactly when the
length of valid_values is zero. -/
def no_valid_data (vs : List FloatVal) : Bool :=
  (validValues vs).length == 0

/-- US gallon to liter constant used on lines 321 and 336 of app.py. -/
def liters_per_gallon : ℚ := 3.78541

/-- Combined result and debug record of convert_power_to_kwh_per_year.  The
Python function returns the pair of result and debug_info; result always
equals the output_value entry of debug_info, so a single record suffices.
The interpolated calculation_steps strings are presentational and elided;
engineering_notes keeps the notes that are string constants in the source. -/
structure PowerConv where
  input_value : ℚ
  input_unit : String
  capacity_factor : ℚ
  conversion_factor : Option ℚ
  output_value : ℚ
  engineering_notes : List String
deriving DecidableEq

/-- Lines 223 to 282 of app.py: convert a power reading to kWh per year.
The capacity factor multiplies only the rate based branches kW and MW; the
unknown unit branch returns 0 with conversion_factor left at None and an
ERROR note appended. -/
def convert_power_to_kwh_per_year (value : ℚ) (unit : String)
    (capacity_factor : ℚ) : PowerConv :=
  if unit = "kWh/yr" then
    { input_value := value
      input_unit := unit
      capacity_factor := capacity_factor
      conversion_factor := some 1
      output_value := value
      engineering_notes := ["Direct energy consumption - no capacity factor applied"] }
  else if unit = "kWh/mo" then
    { input_value := value
      input_unit := unit
      capacity_factor := capacity_factor
      conversion_factor := some 12
      output_value := value * 12
      engineering_notes := ["Monthly energy consumption scaled to annual"] }
  else if unit = "kW" then
    { input_value := value
      input_unit := unit
      capacity_factor := capacity_factor
      conversion_factor := some (8760 * capacity_factor)
      output_value := value * 8760 * capacity_factor
      engineering_notes :=
        ["Industrial facilities typically operate at 70-85% capacity factor",
         "24/7 operation (100% capacity factor) is rare except for continuous processes"] }
  else if unit = "MW" then
    { input_value := value
      input_unit := unit
      capacity_factor := capacity_factor
      conversion_factor := some (1000 * 8760 * capacity_factor)
      output_value := value * 1000 * 8760 * capacity_factor
      engineering_notes :=
        ["MW-scale facilities require careful capacity factor analysis",
         "Consider load profiles, maintenance downtime, and operational patterns"] }
  else
    { input_value := value
      input_unit := unit
      capacity_factor := capacity_factor
      conversion_factor := none
      output_value := 0
      engineering_notes := ["ERROR: Unknown power unit provided"] }

/-- Combined result and debug record of convert_water_to_liters_per_year,
built the same way as PowerConv. -/
structure WaterConv where
  input_value : ℚ
  input_unit : String
  conversion_factor : Option ℚ
  output_value : ℚ
  engineering_notes : List String
deriving DecidableEq

/-- Lines 284 to 354 of app.py: convert a water reading to liters per year.
The unknown unit branch returns 0 with conversion_factor left at None and an
ERROR note appended. -/
def convert_water_to_liters_per_year (value : ℚ) (unit : String) : WaterConv :=
  if unit = "L/yr" then
    { input_value := value
      input_unit := unit
      conversion_factor := some 1
      output_value := value
      engineering_notes := ["Direct annual water consumption"] }
  else if unit = "L/mo" then
    { input_value := value
      input_unit := unit
      conversion_factor := some 12
      output_value := value * 12
      engineering_notes :=
        ["Monthly consumption scaled to annual - consider seasonal variations"] }
  else if unit = "L/s" then
    { input_value := value
      input_unit := unit
      conversion_factor := some 31536000
      output_value := value * 31536000
      engineering_notes :=
        ["Flow rate converted assuming continuous 24/7/365 operation",
         "Industrial processes rarely operate at constant flow rates",
         "Consider peak vs. average flow rates and operational schedules"] }
  else if unit = "gpm" then
    { input_value := value
      input_unit := unit
      conversion_factor := some (525600 * liters_per_gallon)
      output_value := value * 525600 * liters_per_gallon
      engineering_notes :=
        ["Flow rate in US gallons per minute converted to annual consumption",
         "Assumes continuous 24/7/365 operation - verify operational schedule",
         "Consider if this represents peak, average, or design flow rate"] }
  else if unit = "gal/mo" then
    { input_value := value
      input_unit := unit
      conversion_factor := some (12 * liters_per_gallon)
      output_value := value * 12 * liters_per_gallon
      engineering_notes :=
        ["Monthly gallons scaled to annual consumption",
         "Consider seasonal variations in water usage patterns"] }
  else
    { input_value := value
      input_unit := unit
      conversion_factor := none
      output_value := 0
      engineering_notes := ["ERROR: Unknown water unit provided"] }

/-- The fields of the dictionary returned by categorize_facility_size that
identify the band: the display category, the benchmark key and the concern
level.  The longer context strings are presentational and elided. -/
structure FacilityCategory where
  category : String
  benchmark : String
  concern_level : String
deriving DecidableEq

/-- Lines 166 to 221 of app.py: band lookup on annual kWh by a chain of
strict upper bound comparisons.  There is no validation of the input; any
value below 10000, negative values included, lands in the first band. -/
def categorize_facility_size (power_kwh_per_year : ℚ) : FacilityCategory :=
  if power_kwh_per_year < 10000 then
    ⟨"Residential Scale", "residential_small", "high"⟩
  else if power_kwh_per_year < 30000 then
    ⟨"Large Residential", "residential_large", "medium"⟩
  else if power_kwh_per_year < 100000 then
    ⟨"Small Commercial", "commercial_small", "low"⟩
  else if power_kwh_per_year < 1000000 then
    ⟨"Large Commercial/Light Industrial", "commercial_large", "none"⟩
  else if power_kwh_per_year < 10000000 then
    ⟨"Industrial Facility", "industrial_small", "none"⟩
  else
    ⟨"Large Industrial Complex", "industrial_large", "none"⟩

/-- Error taxonomy of section 7 of the spec. -/
inductive CoreError where
  | invalidQuantity
  | unrecognizedUnit
  | invalidCapacityFactor
  | noValidData
deriving DecidableEq

/-- Modelled from the spec (sections 4.1 and 7), for comparison with the
source function convert_power_to_kwh_per_year: normalize_power rejects a
negative magnitude with InvalidQuantityError, rejects a capacity factor
outside the interval (0, 1] with InvalidCapacityFactor, and signals
UnrecognizedUnitError for a unit outside the enumerated set instead of
silently returning 0. -/
def normalize_power_spec (value : ℚ) (unit : String)
    (capacity_factor : ℚ) : Except CoreError ℚ :=
  if value < 0 then .error .invalidQuantity
  else if ¬ (0 < capacity_factor ∧ capacity_factor ≤ 1) then
    .error .invalidCapacityFactor
  else if unit = "kWh/yr" then .ok value
  else if unit = "kWh/mo" then .ok (value * 12)
  else if unit = "kW" then .ok (value * 8760 * capacity_factor)
  else if unit = "MW" then .ok (value * 1000 * 8760 * capacity_factor)
  else .error .unrecognizedUnit

/-- Modelled from the spec (sections 4.1 and 7), for comparison with the
source function convert_water_to_liters_per_year: normalize_water rejects a
negative magnitude and signals UnrecognizedUnitError for a unit outside the
enumerated set instead of silently returning 0. -/
def normalize_water_spec (value : ℚ) (unit : String) : Except CoreError ℚ :=
  if value < 0 then .error .invalidQuantity
  else if unit = "L/yr" then .ok value
  else if unit = "L/mo" then .ok (value * 12)
  else if unit = "L/s" then .ok (value * 31536000)
  else if unit = "gpm" then .ok (value * 525600 * liters_per_gallon)
  else if unit = "gal/mo" then .ok (value * 12 * liters_per_gallon)
  else .error .unrecognizedUnit

/-- Modelled from the spec (section 4.4), for comparison with the source
function categorize_facility_size: classify_scale rejects negative input
with InvalidQuantityError and otherwise returns the band name and concern
level of the right open band the input falls into. -/
def classify_scale_spec (annual_kwh : ℚ) : Except CoreError (String × String) :=
  if annual_kwh < 0 then .error .invalidQuantity
  else if annual_kwh < 10000 then .ok ("Residential-Small", "high")
  else if annual_kwh < 30000 then .ok ("Residential-Large", "medium")
  else if annual_kwh < 100000 then .ok ("Commercial-Small", "low")
  else if annual_kwh < 1000000 then .ok ("Commercial-Large", "none")
  else if annual_kwh < 10000000 then .ok ("Industrial-Small", "none")
  else .ok ("Industrial-Large", "none")

/-- Floor of a nonnegative rational as a natural number.  All percentile
positions computed by app.py are nonnegative, so this agrees with the floor
taken by numpy when it interpolates percentiles. -/
def ratFloorNat (q : ℚ) : ℕ := q.num.toNat / q.den

/-- Linear interpolation percentile of an already sorted list, following the
default numpy definition: the position is p times (n - 1) over 100, and the
value is interpolated linearly between the order statistics on both sides of
the position.  The empty list returns 0; app.py never reaches that case. -/
def percentileOfSorted : List ℚ → ℚ → ℚ
  | [], _ => 0
  | x :: xs, p =>
    let s := x :: xs
    let m : ℕ := s.length - 1
    let pos : ℚ := p * m / 100
    let i : ℕ := ratFloorNat pos
    let frac : ℚ := pos - (i : ℚ)
    if i + 1 ≤ m then s.getD i 0 + frac * (s.getD (i + 1) 0 - s.getD i 0)
    else s.getD m 0

/-- Embedding of np.percentile with the default linear interpolation: sort,
then interpolate.  Also covers np.median, which equals the 50th percentile,
and the 25th, 33rd, 66th and 75th percentiles used by app.py. -/
def percentileQ (values : List ℚ) (p : ℚ) : ℚ :=
  percentileOfSorted (values.insertionSort (· ≤ ·)) p

/-- Embedding of np.min on a list of rationals; app.py only applies it to
nonempty lists, the empty list returns 0. -/
def listMinQ : List ℚ → ℚ
  | [] => 0
  | x :: xs => xs.foldl min x

/-- Embedding of np.max on a list of rationals; app.py only applies it to
nonempty lists, the empty list returns 0. -/
def listMaxQ : List ℚ → ℚ
  | [] => 0
  | x :: xs => xs.foldl max x

/-- Embedding of np.mean: the sum divided by the length. -/
def listMeanQ (l : List ℚ) : ℚ := l.sum / (l.length : ℚ)

/-- Embedding of the square of np.std, the population variance: the mean of
the squared deviations from the mean.  The standard deviation itself is the
square root of this quantity and is irrational in general, so the embedding
carries the variance; the coefficient of variation of the source is the
square root of the variance divided by the mean. -/
def listVarQ (l : List ℚ) : ℚ :=
  (l.map (fun x => (x - listMeanQ l) ^ 2)).sum / (l.length : ℚ)

/-- The numeric fields of the dictionaries built by
calculate_environmental_impact on lines 368 to 384 of app.py: the statistics
of the filtered factor distribution and the four facility impact scalars.
variance_factor is the square of the std_factor entry of the source, see
listVarQ. -/
structure ImpactStats where
  min_factor : ℚ
  max_factor : ℚ
  mean_factor : ℚ
  median_factor : ℚ
  variance_factor : ℚ
  percentile_25 : ℚ
  percentile_75 : ℚ
  min_impact : ℚ
  max_impact : ℚ
  mean_impact : ℚ
  median_impact : ℚ
deriving DecidableEq

/-- Lines 356 to 384 of app.py, for finite factor inputs (on rationals the
numpy mask of line 359 reduces to keeping the strictly positive entries,
since isnan is false on every finite value): filter, then either return the
error dictionary, modelled as none, or the statistics record. -/
def calculate_environmental_impact (power_kwh_per_year : ℚ)
    (metric_values : List ℚ) : Option ImpactStats :=
  let valid := metric_values.filter (fun v => decide (0 < v))
  if valid.isEmpty then none
  else some
    { min_factor := listMinQ valid
      max_factor := listMaxQ valid
      mean_factor := listMeanQ valid
      median_factor := percentileQ valid 50
      variance_factor := listVarQ valid
      percentile_25 := percentileQ valid 25
      percentile_75 := percentileQ valid 75
      min_impact := power_kwh_per_year * listMinQ valid
      max_impact := power_kwh_per_year * listMaxQ valid
      mean_impact := power_kwh_per_year * listMeanQ valid
      median_impact := power_kwh_per_year * percentileQ valid 50 }

/-- Lines 581 to 587 of app.py: assign one of the three impact bands by
comparing against the two percentile thresholds, boundary values falling
into the lower band. -/
def categorize_value (low_percentile high_percentile v : ℚ) : String :=
  if v ≤ low_percentile then "Low Impact"
  else if v ≤ high_percentile then "Medium Impact"
  else "High Impact"

/-- Lines 571 to 589 of app.py: the thresholds are the 33rd and 66th
percentiles of the value column itself, and every value of that same column
is categorized against them, in order. -/
def classifyTerciles (values : List ℚ) : List String :=
  values.map
    (categorize_value (percentileQ values 33) (percentileQ values 66))

/-- Every position of a constant list reads back the constant. -/
lemma getD_eq_of_forall_eq : ∀ (l : List ℚ) (c : ℚ), (∀ x ∈ l, x = c) →
    ∀ n : ℕ, n < l.length → l.getD n 0 = c
  | [], _, _, n, hn => absurd hn (by simp)
  | x :: _, c, h, 0, _ => h x (by simp)
  | _ :: xs, c, h, n + 1, hn => by
    have ih := getD_eq_of_forall_eq xs c
      (fun y hy => h y (List.mem_cons_of_mem _ hy)) n (by simpa using hn)
    simpa using ih

/-- Interpolating between equal order statistics returns that value, for any
percentile: the interpolation formula collapses on a constant sorted list. -/
lemma percentileOfSorted_const {s : List ℚ} {c : ℚ} (hne : s ≠ [])
    (h : ∀ x ∈ s, x = c) (p : ℚ) : percentileOfSorted s p = c := by
  cases s with
  | nil => exact absurd rfl hne
  | cons x xs =>
    simp only [percentileOfSorted]
    split
    · case isTrue hle =>
      have hlen : (x :: xs).length = xs.length + 1 := rfl
      have hi : ratFloorNat (p * ((x :: xs).length - 1 : ℕ) / 100) <
          (x :: xs).length := by omega
      have hi1 : ratFloorNat (p * ((x :: xs).length - 1 : ℕ) / 100) + 1 <
          (x :: xs).length := by omega
      rw [getD_eq_of_forall_eq _ c h _ hi, getD_eq_of_forall_eq _ c h _ hi1]
      ring
    · case isFalse hgt =>
      have hm : (x :: xs).length - 1 < (x :: xs).length := by
        simp [List.length_cons]
      rw [getD_eq_of_forall_eq _ c h _ hm]

/-- The percentile of a nonempty constant list is that constant, for any
percentile; in particular the 33rd and 66th percentile thresholds coincide
on such a list. -/
lemma percentileQ_const {l : List ℚ} {c : ℚ} (hne : l ≠ [])
    (h : ∀ x ∈ l, x = c) (p : ℚ) : percentileQ l p = c := by
  unfold percentileQ
  have hlen : (l.insertionSort (· ≤ ·)).length = l.length :=
    List.length_insertionSort _ _
  apply percentileOfSorted_const
  · intro hnil
    apply hne
    have h0 : l.length = 0 := by rw [← hlen, hnil]; rfl
    exact List.length_eq_zero.mp h0
  · intro y hy
    exact h y ((List.mem_insertionSort (· ≤ ·)).mp hy)

/-- C1: for every finite magnitude x at least 0 and capacity factor cf,
convert_power_to_kwh_per_year follows the conversion table: kWh/yr returns
x, kWh/mo returns x times 12, kW returns x times 8760 times cf, MW returns
x times 1000 times 8760 times cf; and for the energy based units kWh/yr and
kWh/mo the result does not depend on cf, which is therefore equivalent to
treating it as 1. -/
theorem C1_power_conversion_table (x cf : ℚ) (hx : 0 ≤ x) :
    (convert_power_to_kwh_per_year x "kWh/yr" cf).output_value = x
    ∧ (convert_power_to_kwh_per_year x "kWh/mo" cf).output_value = x * 12
    ∧ (convert_power_to_kwh_per_year x "kW" cf).output_value = x * 8760 * cf
    ∧ (convert_power_to_kwh_per_year x "MW" cf).output_value
        = x * 1000 * 8760 * cf
    ∧ (convert_power_to_kwh_per_year x "kWh/yr" cf).output_value
        = (convert_power_to_kwh_per_year x "kWh/yr" 1).output_value
    ∧ (convert_power_to_kwh_per_year x "kWh/mo" cf).output_value
        = (convert_power_to_kwh_per_year x "kWh/mo" 1).output_value :=
  ⟨rfl, rfl, rfl, rfl, rfl, rfl⟩

/-- Witness for C1: 3 MW at capacity factor 0.8 converts to 21024000 kWh per
year. -/
theorem C1_power_conversion_table_witness :
    (convert_power_to_kwh_per_year 3 "MW" (4 / 5)).output_value = 21024000 := by
  have h := (C1_power_conversion_table 3 (4 / 5) (by norm_num)).2.2.2.1
  rw [h]
  norm_num

/-- C2 counterexample: a positive infinite factor entry is not finite, yet it
survives the filter mask of line 359 of app.py, and on the one element input
holding just that entry the error branch is not taken, although after
excluding non finite entries zero factors would remain. -/
theorem C2_nonfinite_not_excluded :
    validValues [FloatVal.posinf] = [FloatVal.posinf]
    ∧ FloatVal.isFiniteB FloatVal.posinf = false
    ∧ no_valid_data [FloatVal.posinf] = false :=
  ⟨rfl, rfl, rfl⟩

/-- C2 (amended): the filter keeps exactly the entries that are neither NaN
nor nonpositive under the IEEE comparison, so a positive infinite entry
survives; and on finite inputs the statistics function fails, returning no
statistics, precisely when no entry survives the filter. -/
theorem C2_filter_nan_nonpositive (vs : List FloatVal) (v : FloatVal)
    (p : ℚ) (qs : List ℚ) :
    (v ∈ validValues vs ↔ v ∈ vs ∧ v.isnanB = false ∧ v.gtZeroB = true)
    ∧ (calculate_environmental_impact p qs = none
        ↔ qs.filter (fun q => decide (0 < q)) = []) := by
  constructor
  · simp [validValues, List.mem_filter]
  · cases hf : qs.filter (fun q => decide (0 < q)) with
    | nil => simp [calculate_environmental_impact, hf]
    | cons y ys => simp [calculate_environmental_impact, hf]

/-- C6: for every finite magnitude x at least 0,
convert_water_to_liters_per_year follows the conversion table: L/yr returns
x, L/mo returns x times 12, L/s returns x times 31536000, gpm returns x
times 525600 times 3.78541, and gal/mo returns x times 12 times 3.78541. -/
theorem C6_water_conversion_table (x : ℚ) (hx : 0 ≤ x) :
    (convert_water_to_liters_per_year x "L/yr").output_value = x
    ∧ (convert_water_to_liters_per_year x "L/mo").output_value = x * 12
    ∧ (convert_water_to_liters_per_year x "L/s").output_value = x * 31536000
    ∧ (convert_water_to_liters_per_year x "gpm").output_value
        = x * 525600 * (3.78541 : ℚ)
    ∧ (convert_water_to_liters_per_year x "gal/mo").output_value
        = x * 12 * (3.78541 : ℚ) :=
  ⟨rfl, rfl, rfl, rfl, rfl⟩

/-- Witness for C6: 2 liters per month convert to 24 liters per year. -/
theorem C6_water_conversion_table_witness :
    (convert_water_to_liters_per_year 2 "L/mo").output_value = 24 := by
  have h := (C6_water_conversion_table 2 (by norm_num)).2.1
  rw [h]
  norm_num

/-- C8 counterexample: with a capacity factor of 2, outside the interval
(0, 1], the source function computes 1 times 8760 times 2 kWh per year
instead of rejecting the call, while the spec contract rejects the same
input with InvalidCapacityFactor. -/
theorem C8_capacity_factor_not_validated :
    (convert_power_to_kwh_per_year 1 "kW" 2).output_value = 17520
    ∧ normalize_power_spec 1 "kW" 2
        = Except.error CoreError.invalidCapacityFactor := by
  constructor
  · show (1 : ℚ) * 8760 * 2 = 17520
    norm_num
  · rfl

/-- C8 (amended): convert_power_to_kwh_per_year applies no validation to the
capacity factor: even for a capacity factor outside (0, 1] the kW and MW
branches multiply it in and return a computed result. -/
theorem C8_capacity_factor_unchecked (v cf : ℚ) (h : cf ≤ 0 ∨ 1 < cf) :
    (convert_power_to_kwh_per_year v "kW" cf).output_value = v * 8760 * cf
    ∧ (convert_power_to_kwh_per_year v "MW" cf).output_value
        = v * 1000 * 8760 * cf :=
  ⟨rfl, rfl⟩

/-- Witness for C8: 3 kW at the out of range capacity factor 2 still yields
the computed 52560 kWh per year. -/
theorem C8_capacity_factor_unchecked_witness :
    (convert_power_to_kwh_per_year 3 "kW" 2).output_value = 52560 := by
  have h := (C8_capacity_factor_unchecked 3 2 (Or.inr (by norm_num))).1
  rw [h]
  norm_num

/-- C9 counterexample: converting 10 gpm yields 19896114.96 liters per year,
which is not within 0.01 of the value 19895734.56 stated by the spec; the
difference is 380.40. -/
theorem C9_spec_value_off :
    ¬ |(convert_water_to_liters_per_year 10 "gpm").output_value
        - (19895734.56 : ℚ)| ≤ (0.01 : ℚ) := by
  intro habs
  have hle := le_trans (le_abs_self _) habs
  have hv : (convert_water_to_liters_per_year 10 "gpm").output_value
      = (19896114.96 : ℚ) := by
    show (10 : ℚ) * 525600 * liters_per_gallon = (19896114.96 : ℚ)
    norm_num [liters_per_gallon]
  rw [hv] at hle
  norm_num at hle

/-- C9 (amended): converting 10 gpm yields exactly 10 times 525600 times
3.78541 liters per year, whose exact value is 19896114.96. -/
theorem C9_gpm_exact :
    (convert_water_to_liters_per_year 10 "gpm").output_value
      = 10 * 525600 * (3.78541 : ℚ)
    ∧ (convert_water_to_liters_per_year 10 "gpm").output_value
      = (19896114.96 : ℚ) := by
  constructor
  · rfl
  · show (10 : ℚ) * 525600 * liters_per_gallon = (19896114.96 : ℚ)
    norm_num [liters_per_gallon]

/-- C3: on every nonempty value array the tercile classifier emits exactly
one band per element in input order; each element is banded against the 33rd
and 66th linear interpolation percentiles of that same array with the exact
tie break that boundary values fall to the lower band; and when all values
are equal every element is classified Low. -/
theorem C3_tercile_classifier (l : List ℚ) (hne : l ≠ []) :
    (classifyTerciles l).length = l.length
    ∧ (∀ i (h1 : i < l.length) (h2 : i < (classifyTerciles l).length),
        (classifyTerciles l).get ⟨i, h2⟩ =
          (if l.get ⟨i, h1⟩ ≤ percentileQ l 33 then "Low Impact"
           else if l.get ⟨i, h1⟩ ≤ percentileQ l 66 then "Medium Impact"
           else "High Impact"))
    ∧ (∀ c, (∀ x ∈ l, x = c) →
        ∀ b ∈ classifyTerciles l, b = "Low Impact") := by
  refine ⟨by simp [classifyTerciles], ?_, ?_⟩
  · intro i h1 h2
    simp [classifyTerciles, categorize_value]
  · intro c hc b hb
    simp only [classifyTerciles, List.mem_map] at hb
    obtain ⟨x, hx, hbe⟩ := hb
    have hxc : x = c := hc x hx
    have h33 : percentileQ l 33 = c := percentileQ_const hne hc 33
    rw [← hbe, categorize_value, hxc, h33]
    simp

/-- Witness for C3 on the constant array with three entries. -/
theorem C3_tercile_classifier_witness : (classifyTerciles [5, 5, 5]).length = 3 := by
  have h := (C3_tercile_classifier [5, 5, 5] (by simp)).1
  simpa using h

/-- C4: with nonnegative annual power and a factor array holding at least one
positive entry, calculate_environmental_impact succeeds, its four facility
impact outputs are exactly the annual power times the min, max, mean and
median of the filtered factors, and at zero annual power all four impact
outputs are zero while the factor statistics are still returned. -/
theorem C4_facility_impact_products (p : ℚ) (vs : List ℚ) (hp : 0 ≤ p)
    (hv : ∃ x, x ∈ vs ∧ 0 < x) :
    (calculate_environmental_impact p vs).isSome = true
    ∧ ∀ r, calculate_environmental_impact p vs = some r →
        r.min_impact = p * listMinQ (vs.filter (fun v => decide (0 < v)))
        ∧ r.max_impact = p * listMaxQ (vs.filter (fun v => decide (0 < v)))
        ∧ r.mean_impact = p * listMeanQ (vs.filter (fun v => decide (0 < v)))
        ∧ r.median_impact
            = p * percentileQ (vs.filter (fun v => decide (0 < v))) 50
        ∧ (p = 0 → r.min_impact = 0 ∧ r.max_impact = 0
            ∧ r.mean_impact = 0 ∧ r.median_impact = 0) := by
  obtain ⟨x, hx, hxpos⟩ := hv
  have hmem : x ∈ vs.filter (fun v => decide (0 < v)) :=
    List.mem_filter.mpr ⟨hx, by simpa using hxpos⟩
  have hemp : (vs.filter (fun v => decide (0 < v))).isEmpty = false := by
    cases hfe : vs.filter (fun v => decide (0 < v)) with
    | nil => rw [hfe] at hmem; cases hmem
    | cons y ys => rfl
  constructor
  · simp [calculate_environmental_impact, hemp]
  · intro r hr
    simp only [calculate_environmental_impact, hemp, Bool.false_eq_true,
      if_false, Option.some.injEq] at hr
    subst hr
    refine ⟨rfl, rfl, rfl, rfl, ?_⟩
    intro hp0
    subst hp0
    simp

/-- Witness for C4: at zero power and the one element factor array the
computation still succeeds. -/
theorem C4_facility_impact_products_witness :
    (calculate_environmental_impact 0 [2]).isSome = true :=
  (C4_facility_impact_products 0 [2] le_rfl ⟨2, by simp, by norm_num⟩).1

/-- C5 counterexample: for the unknown unit furlong the source conversion
functions return an ordinary result record with value 0, conversion factor
None and only a trace note, while the spec contract returns the
UnrecognizedUnitError condition for the same inputs; the reference behavior
is the silent zero return the spec claims was replaced. -/
theorem C5_silent_zero_on_unknown_unit :
    (convert_power_to_kwh_per_year 5 "furlong" 1).output_value = 0
    ∧ (convert_power_to_kwh_per_year 5 "furlong" 1).conversion_factor = none
    ∧ (convert_power_to_kwh_per_year 5 "furlong" 1).engineering_notes
        = ["ERROR: Unknown power unit provided"]
    ∧ normalize_power_spec 5 "furlong" 1
        = Except.error CoreError.unrecognizedUnit
    ∧ (convert_water_to_liters_per_year 5 "furlong").output_value = 0
    ∧ normalize_water_spec 5 "furlong"
        = Except.error CoreError.unrecognizedUnit :=
  ⟨rfl, rfl, rfl, rfl, rfl, rfl⟩

/-- C5 (amended): for every unit tag outside the recognized enumerated set
both conversion functions return 0 as an ordinary result, recording only the
ERROR trace note in the debug information; no error value reaches the
caller. -/
theorem C5_unknown_unit_returns_zero_with_note (v cf : ℚ) (u w : String)
    (hu : u ∉ ["kWh/yr", "kWh/mo", "kW", "MW"])
    (hw : w ∉ ["L/yr", "L/mo", "L/s", "gpm", "gal/mo"]) :
    (convert_power_to_kwh_per_year v u cf).output_value = 0
    ∧ (convert_power_to_kwh_per_year v u cf).engineering_notes
        = ["ERROR: Unknown power unit provided"]
    ∧ (convert_water_to_liters_per_year v w).output_value = 0
    ∧ (convert_water_to_liters_per_year v w).engineering_notes
        = ["ERROR: Unknown water unit provided"] := by
  simp only [List.mem_cons, List.not_mem_nil, or_false, not_or] at hu hw
  obtain ⟨h1, h2, h3, h4⟩ := hu
  obtain ⟨g1, g2, g3, g4, g5⟩ := hw
  refine ⟨?_, ?_, ?_, ?_⟩ <;>
    simp [convert_power_to_kwh_per_year, convert_water_to_liters_per_year,
      h1, h2, h3, h4, g1, g2, g3, g4, g5]

/-- Witness for C5 at the unknown unit BTU. -/
theorem C5_unknown_unit_witness :
    (convert_power_to_kwh_per_year 7 "BTU" 1).output_value = 0 :=
  (C5_unknown_unit_returns_zero_with_note 7 1 "BTU" "BTU"
    (by simp) (by simp)).1

/-- C7 counterexample: the source function does not reject negative input;
minus one lands in the first band with concern level high, while the spec
contract rejects the same input with InvalidQuantityError. -/
theorem C7_negative_not_rejected :
    categorize_facility_size (-1)
      = ⟨"Residential Scale", "residential_small", "high"⟩
    ∧ classify_scale_spec (-1) = Except.error CoreError.invalidQuantity :=
  ⟨rfl, rfl⟩

/-- C7 (amended): categorize_facility_size maps every annual kWh into exactly
one of six ordered, non overlapping, right open bands with the benchmarks
and concern levels of the claim; the first band is unbounded below, so a
negative input is not rejected but classified Residential-Small. -/
theorem C7_facility_size_bands (x : ℚ) :
    (x < 10000 → categorize_facility_size x
      = ⟨"Residential Scale", "residential_small", "high"⟩)
    ∧ (10000 ≤ x → x < 30000 → categorize_facility_size x
      = ⟨"Large Residential", "residential_large", "medium"⟩)
    ∧ (30000 ≤ x → x < 100000 → categorize_facility_size x
      = ⟨"Small Commercial", "commercial_small", "low"⟩)
    ∧ (100000 ≤ x → x < 1000000 → categorize_facility_size x
      = ⟨"Large Commercial/Light Industrial", "commercial_large", "none"⟩)
    ∧ (1000000 ≤ x → x < 10000000 → categorize_facility_size x
      = ⟨"Industrial Facility", "industrial_small", "none"⟩)
    ∧ (10000000 ≤ x → categorize_facility_size x
      = ⟨"Large Industrial Complex", "industrial_large", "none"⟩) := by
  refine ⟨?_, ?_, ?_, ?_, ?_, ?_⟩
  · intro ha
    simp [categorize_facility_size, ha]
  · intro ha hb
    simp [categorize_facility_size, not_lt.mpr ha, hb]
  · intro ha hb
    simp [categorize_facility_size, hb,
      not_lt.mpr (le_trans (by norm_num : (10000 : ℚ) ≤ 30000) ha),
      not_lt.mpr ha]
  · intro ha hb
    simp [categorize_facility_size, hb,
      not_lt.mpr (le_trans (by norm_num : (10000 : ℚ) ≤ 100000) ha),
      not_lt.mpr (le_trans (by norm_num : (30000 : ℚ) ≤ 100000) ha),
      not_lt.mpr ha]
  · intro ha hb
    simp [categorize_facility_size, hb,
      not_lt.mpr (le_trans (by norm_num : (10000 : ℚ) ≤ 1000000) ha),
      not_lt.mpr (le_trans (by norm_num : (30000 : ℚ) ≤ 1000000) ha),
      not_lt.mpr (le_trans (by norm_num : (100000 : ℚ) ≤ 1000000) ha),
      not_lt.mpr ha]
  · intro ha
    simp [categorize_facility_size,
      not_lt.mpr (le_trans (by norm_num : (10000 : ℚ) ≤ 10000000) ha),
      not_lt.mpr (le_trans (by norm_num : (30000 : ℚ) ≤ 10000000) ha),
      not_lt.mpr (le_trans (by norm_num : (100000 : ℚ) ≤ 10000000) ha),
      not_lt.mpr (le_trans (by norm_num : (1000000 : ℚ) ≤ 10000000) ha),
      not_lt.mpr ha]

/-- Witness for C7: 500000 kWh per year is Large Commercial with concern
level none. -/
theorem C7_facility_size_bands_witness :
    categorize_facility_size 500000
      = ⟨"Large Commercial/Light Industrial", "commercial_large", "none"⟩ :=
  (C7_facility_size_bands 500000).2.2.2.1 (by norm_num) (by norm_num)

/-- C10: every factor surviving the filter of calculate_environmental_impact
is strictly positive, hence on a nonempty filtered set the mean is strictly
positive and in particular nonzero, so the division by the mean in the
coefficient of variation never divides by zero for finite inputs. -/
theorem C10_mean_positive (qs : List ℚ)
    (h : qs.filter (fun q => decide (0 < q)) ≠ []) :
    (∀ v ∈ qs.filter (fun q => decide (0 < q)), 0 < v)
    ∧ 0 < listMeanQ (qs.filter (fun q => decide (0 < q)))
    ∧ ∀ (p : ℚ) (r : ImpactStats),
        calculate_environmental_impact p qs = some r → r.mean_factor ≠ 0 := by
  have hall : ∀ v ∈ qs.filter (fun q => decide (0 < q)), 0 < v := by
    intro v hv
    have := (List.mem_filter.mp hv).2
    simpa using this
  have hmean : 0 < listMeanQ (qs.filter (fun q => decide (0 < q))) := by
    unfold listMeanQ
    apply div_pos
    · exact List.sum_pos _ hall h
    · exact_mod_cast List.length_pos.mpr h
  refine ⟨hall, hmean, ?_⟩
  intro p r hr
  have hemp : (qs.filter (fun q => decide (0 < q))).isEmpty = false := by
    cases hfe : qs.filter (fun q => decide (0 < q)) with
    | nil => exact absurd hfe h
    | cons y ys => rfl
  simp only [calculate_environmental_impact, hemp, Bool.false_eq_true,
    if_false, Option.some.injEq] at hr
  subst hr
  exact ne_of_gt hmean

/-- Witness for C10 on the one element array. -/
theorem C10_mean_positive_witness :
    0 < listMeanQ (List.filter (fun q => decide (0 < q)) [1]) :=
  (C10_mean_positive [1] (by decide)).2.1
